import Mathlib

/-!
Shallow embedding of the simple-monitoring-tool repository
(machine_model.py, monitoring.py, api_server.py, main.py).

Conventions of the embedding:
- A raw JSON record is a structure of optional fields; a missing key is none.
  The url key may be present holding a JSON null, hence Option (Option String).
- Pydantic model validation is embedded field by field in declaration order:
  a missing field with no default is an error Field required; a missing field
  with a default takes the default and its field validators are skipped
  (pydantic validate_default is False by default); errors of all fields are
  accumulated into one list, in field declaration order.
- Quote marks appearing inside Python error message texts are omitted.
- Network probes are passed in as an explicit Transport value, so the probe
  executor and the classifier inside monitor_vm are pure functions of the
  transport; the real run_ping and run_http live behind that interface.
-/

deriving instance DecidableEq for Except

/-! Python string primitives, implemented by structural recursion over the
character list of a string so that concrete runs reduce inside the kernel. -/

/-- Python str.strip with no argument: drop whitespace from both ends. -/
def pyStrip (s : String) : String :=
  ⟨((s.data.dropWhile Char.isWhitespace).reverse.dropWhile Char.isWhitespace).reverse⟩

/-- Python str.lower restricted to ascii letters. -/
def pyLower (s : String) : String := ⟨s.data.map Char.toLower⟩

/-- Python str.upper restricted to ascii letters. -/
def pyUpper (s : String) : String := ⟨s.data.map Char.toUpper⟩

/-- Python str.startswith. -/
def pyStartsWith (s pre : String) : Bool := pre.data.isPrefixOf s.data

def splitOnChar (sep : Char) : List Char → List (List Char)
  | [] => [[]]
  | c :: rest =>
    let r := splitOnChar sep rest
    if c = sep then [] :: r
    else
      match r with
      | [] => [[c]]
      | g :: gs => (c :: g) :: gs

/-- Python str.split with a one-character separator. -/
def pySplitOn (s : String) (sep : Char) : List String :=
  (splitOnChar sep s.data).map (fun g => ⟨g⟩)

def splitWsAux : List Char → List Char → List (List Char)
  | [], acc => if acc.isEmpty then [] else [acc.reverse]
  | c :: rest, acc =>
    if c.isWhitespace then
      if acc.isEmpty then splitWsAux rest []
      else acc.reverse :: splitWsAux rest []
    else splitWsAux rest (c :: acc)

/-- Python str.split with no argument: split on whitespace runs, dropping
empty fields, so empty and all-whitespace strings give the empty list. -/
def pySplitWs (s : String) : List String :=
  (splitWsAux s.data []).map (fun g => ⟨g⟩)

structure RawRecord where
  name : Option String := none
  ip : Option String := none
  os : Option String := none
  status : Option String := none
  check : Option String := none
  url : Option (Option String) := none
  cpu_percent : Option Int := none
  memory_percent : Option Int := none
  response_time_ms : Option Int := none
  health : Option String := none
deriving DecidableEq

/-- A validated VM instance, mirroring the fields of the pydantic VMInstance
model in machine_model.py. The ip is kept as its accepted string form. -/
structure VMInstance where
  name : String
  ip : String
  os : String
  status : String
  check : String
  url : Option String
  cpu_percent : Int
  memory_percent : Int
  response_time_ms : Int
  health : String
deriving DecidableEq

/-! IP address parsing, modelling the Python ipaddress module as used by
pydantic IPvAnyAddress: IPv4Address is tried first, then IPv6Address. -/

/-- One dotted-quad octet: 1 to 3 ascii digits, no leading zero, value at
most 255, as in ipaddress IPv4Address octet parsing. -/
def octetVal (s : String) : Nat :=
  s.data.foldl (fun n c => 10 * n + (c.toNat - 48)) 0

def isValidOctet (s : String) : Bool :=
  decide (0 < s.length) && decide (s.length ≤ 3)
    && s.data.all (fun c => c.isDigit)
    && (s.length == 1 || !(s.data.headD 'x' == '0'))
    && decide (octetVal s ≤ 255)

/-- IPv4 dotted quad: exactly 4 octet parts split on dots. -/
def isValidIPv4 (addr : String) : Bool :=
  let parts := pySplitOn addr '.'
  (parts.length == 4) && parts.all isValidOctet

def isHexDigitChar (c : Char) : Bool :=
  c.isDigit || (decide ('a' ≤ c) && decide (c ≤ 'f'))
    || (decide ('A' ≤ c) && decide (c ≤ 'F'))

/-- One IPv6 hextet: 1 to 4 hex digits. -/
def isValidHextet (s : String) : Bool :=
  decide (0 < s.length) && decide (s.length ≤ 4) && s.data.all isHexDigitChar

/-- When the last colon-separated part contains a dot it must be a valid
IPv4 address and stands for two 16-bit groups, as in ipaddress. -/
def ipv6ReplaceIPv4 (parts : List String) : Option (List String) :=
  match parts.getLast? with
  | none => none
  | some last =>
    if last.data.contains '.' then
      if isValidIPv4 last then some (parts.dropLast ++ ["0", "0"]) else none
    else some parts

/-- IPv6 textual form, following the algorithm of ipaddress
IPv6Address: split on colons, optional trailing embedded IPv4, at most one
double-colon compression supplying at least one zero group, 8 groups total. -/
def isValidIPv6 (addr : String) : Bool :=
  let parts0 := pySplitOn addr ':'
  if parts0.length < 3 then false
  else
    match ipv6ReplaceIPv4 parts0 with
    | none => false
    | some parts =>
      let n := parts.length
      let inner := (List.range n).filter
        (fun i => decide (0 < i) && decide (i < n - 1) && (parts.getD i "x" == ""))
      match inner with
      | [] => (n == 8) && parts.all isValidHextet
      | [i] =>
        let headEmpty := parts.headD "x" == ""
        let lastEmpty := parts.getLastD "x" == ""
        if headEmpty && !(i == 1) then false
        else if lastEmpty && !(n - i - 1 == 1) then false
        else
          let hi := if headEmpty then i - 1 else i
          let lo := if lastEmpty then n - i - 2 else n - i - 1
          if 8 - (hi + lo) == 0 then false
          else (parts.take hi).all isValidHextet
            && (parts.drop (n - lo)).all isValidHextet
      | _ => false

def isValidIP (s : String) : Bool := isValidIPv4 s || isValidIPv6 s

/-! Field checks of the VMInstance pydantic model, one per field, in
declaration order. Each returns the validated value or the error reason. -/

def allowed_os : List String :=
  ["linux", "windows", "ubuntu", "centos", "debian", "redhat", "macos",
   "arch", "fedora", "ios"]

def nameCheck (r : RawRecord) : Except String String :=
  match r.name with
  | none => .error "Field required"
  | some v => if pyStrip v = "" then .error "Name cannot be empty" else .ok v

def ipCheck (r : RawRecord) : Except String String :=
  match r.ip with
  | none => .error "Field required"
  | some v =>
    if isValidIP v then .ok v
    else .error "value is not a valid IPv4 or IPv6 address"

def osCheck (r : RawRecord) : Except String String :=
  match r.os with
  | none => .error "Field required"
  | some v =>
    let cleaned := pyLower (pyStrip v)
    if allowed_os.any
        (fun osName => cleaned == osName || pyStartsWith cleaned (osName ++ " ")) then
      .ok v
    else
      .error "Invalid operating system. Please choose from: arch, centos, debian, fedora, ios, linux, macos, redhat, ubuntu, windows"

def statusCheck (r : RawRecord) : Except String String :=
  match r.status with
  | none => .error "Field required"
  | some v =>
    if v = "UP" ∨ v = "DOWN" then .ok v
    else .error "Input should be UP or DOWN"

/-- The check field has default ping, so a missing value takes the default. -/
def checkCheck (r : RawRecord) : Except String String :=
  match r.check with
  | none => .ok "ping"
  | some v =>
    if v = "ping" ∨ v = "http" then .ok v
    else .error "Input should be ping or http"

/-- The url field has default None; when the key is omitted the default is
used and the url_required_if_http validator is skipped (pydantic does not
validate defaults). When the key is present the validator reads the already
validated check value from info.data, absent there if check itself failed. -/
def urlCheck (r : RawRecord) : Except String (Option String) :=
  match r.url with
  | none => .ok none
  | some v =>
    let checkValue : Option String := (checkCheck r).toOption
    if checkValue = some "http" ∧ (v = none ∨ v = some "") then
      .error "URL is required when check=http"
    else if checkValue = some "ping" ∧ v ≠ none then
      .error "URL must not be provided when check=ping"
    else .ok v

def cpuCheck (r : RawRecord) : Except String Int :=
  match r.cpu_percent with
  | none => .error "Field required"
  | some v =>
    if v < 0 then .error "Input should be greater than or equal to 0"
    else if v > 100 then .error "Input should be less than or equal to 100"
    else .ok v

def memCheck (r : RawRecord) : Except String Int :=
  match r.memory_percent with
  | none => .error "Field required"
  | some v =>
    if v < 0 then .error "Input should be greater than or equal to 0"
    else if v > 100 then .error "Input should be less than or equal to 100"
    else .ok v

def rtCheck (r : RawRecord) : Except String Int :=
  match r.response_time_ms with
  | none => .error "Field required"
  | some v =>
    if v < 0 then .error "Input should be greater than or equal to 0"
    else .ok v

def healthCheck (r : RawRecord) : Except String String :=
  match r.health with
  | none => .error "Field required"
  | some v =>
    if v = "OK" ∨ v = "WARN" ∨ v = "CRIT" then .ok v
    else .error "Input should be OK, WARN or CRIT"

def errList {α : Type} (fname : String) : Except String α → List (String × String)
  | .error m => [(fname, m)]
  | .ok _ => []

/-- All field errors of one raw record, accumulated in field declaration
order, as pydantic reports them in a single ValidationError. -/
def validationErrors (r : RawRecord) : List (String × String) :=
  errList "name" (nameCheck r) ++ errList "ip" (ipCheck r)
    ++ errList "os" (osCheck r) ++ errList "status" (statusCheck r)
    ++ errList "check" (checkCheck r) ++ errList "url" (urlCheck r)
    ++ errList "cpu_percent" (cpuCheck r) ++ errList "memory_percent" (memCheck r)
    ++ errList "response_time_ms" (rtCheck r) ++ errList "health" (healthCheck r)

def fieldNames : List String :=
  ["name", "ip", "os", "status", "check", "url", "cpu_percent",
   "memory_percent", "response_time_ms", "health"]

def okD {α : Type} (e : Except String α) (d : α) : α :=
  match e with
  | .ok a => a
  | .error _ => d

/-- The model value built when no field failed; the fallback arguments are
never used in that case. -/
def buildVM (r : RawRecord) : VMInstance :=
  { name := okD (nameCheck r) ""
    ip := okD (ipCheck r) ""
    os := okD (osCheck r) ""
    status := okD (statusCheck r) ""
    check := okD (checkCheck r) "ping"
    url := okD (urlCheck r) none
    cpu_percent := okD (cpuCheck r) 0
    memory_percent := okD (memCheck r) 0
    response_time_ms := okD (rtCheck r) 0
    health := okD (healthCheck r) "OK" }

/-- VMInstance construction from a raw record: the model value when every
field check passed, otherwise the accumulated error list. -/
def Validate (r : RawRecord) : Except (List (String × String)) VMInstance :=
  if validationErrors r = [] then .ok (buildVM r)
  else .error (validationErrors r)

/-! The probe executor and health classifier of monitoring.py. The two
network calls run_ping and run_http are the probe transport; monitor_vm is
embedded as a pure function of an explicit transport value. -/

/-- The probe transport: ping maps an address to (success, elapsed ms);
http maps a url to (success, optional status code, elapsed ms), where the
real run_http pairs success with a concrete status code and failure with a
null code. -/
structure Transport where
  ping : String → Bool × Int
  http : String → Bool × Option Int × Int

/-- The structured result dict returned by monitor_vm. -/
structure HealthResult where
  name : String
  status : String
  health : String
  method : String
  response_time_ms : Option Int
  cpu_percent : Option Int
  memory_percent : Option Int
deriving DecidableEq

/-- The result dict of monitor_vm together with the reason string it
computes and prints; the dict itself does not carry the reason. -/
structure MonitorOutcome where
  result : HealthResult
  reason : String
deriving DecidableEq

/-- monitor_vm of monitoring.py. A probe transport that pairs success with
a null status code makes the Python code compare None with an int, raising
a TypeError; that failure mode is the error case of the result. -/
def monitor_vm (t : Transport) (vm : VMInstance) : Except String MonitorOutcome :=
  let cpu_percent : Option Int := some vm.cpu_percent
  let memory_percent : Option Int := some vm.memory_percent
  let method := vm.check
  if method = "ping" then
    let pr := t.ping vm.ip
    let rt := pr.2
    if pr.1 = false then
      .ok ⟨⟨vm.name, vm.status, "CRIT", method, some rt, cpu_percent, memory_percent⟩,
           "Ping failed"⟩
    else if rt > 250 then
      .ok ⟨⟨vm.name, vm.status, "WARN", method, some rt, cpu_percent, memory_percent⟩,
           "High latency"⟩
    else
      .ok ⟨⟨vm.name, vm.status, "OK", method, some rt, cpu_percent, memory_percent⟩,
           "Healthy"⟩
  else if method = "http" then
    if vm.url = none ∨ vm.url = some "" then
      .ok ⟨⟨vm.name, vm.status, "CRIT", method, some 0, cpu_percent, memory_percent⟩,
           "Missing URL for HTTP check"⟩
    else
      let u := (vm.url).getD ""
      let hr := t.http u
      let statusCode := hr.2.1
      let rt := hr.2.2
      if hr.1 = false then
        .ok ⟨⟨vm.name, vm.status, "CRIT", method, some rt, cpu_percent, memory_percent⟩,
             "HTTP request failed"⟩
      else
        match statusCode with
        | none => .error "TypeError: comparison not supported between NoneType and int"
        | some code =>
          if code ≥ 500 then
            .ok ⟨⟨vm.name, vm.status, "CRIT", method, some rt, cpu_percent, memory_percent⟩,
                 "HTTP " ++ toString code⟩
          else if code ≥ 400 ∨ rt > 400 then
            .ok ⟨⟨vm.name, vm.status, "WARN", method, some rt, cpu_percent, memory_percent⟩,
                 "HTTP " ++ toString code ++ " or slow response"⟩
          else
            .ok ⟨⟨vm.name, vm.status, "OK", method, some rt, cpu_percent, memory_percent⟩,
                 "Healthy"⟩
  else
    .ok ⟨⟨vm.name, vm.status, "WARN", method, none, cpu_percent, memory_percent⟩,
         "Unsupported check method"⟩

/-! The batch evaluator validate_all_instances of monitoring.py: iterate in
input order, skip a record that fails validation, catch a monitoring failure
for one VM, collect one result dict per fully processed record. The printed
and logged failures form the skip log. -/

inductive SkipEntry where
  | invalidRecord : Nat → List (String × String) → SkipEntry
  | monitorFailed : Nat → String → String → SkipEntry
deriving DecidableEq

def evalLoop (t : Transport) : Nat → List RawRecord → List HealthResult × List SkipEntry
  | _, [] => ([], [])
  | idx, d :: rest =>
    match Validate d with
    | .error errs =>
      let tail := evalLoop t (idx + 1) rest
      (tail.1, .invalidRecord idx errs :: tail.2)
    | .ok vm =>
      match monitor_vm t vm with
      | .error msg =>
        let tail := evalLoop t (idx + 1) rest
        (tail.1, .monitorFailed idx vm.name msg :: tail.2)
      | .ok out =>
        let tail := evalLoop t (idx + 1) rest
        (out.result :: tail.1, tail.2)

/-- validate_all_instances of monitoring.py, with 1-based indices as in
enumerate(instances, 1). -/
def validate_all_instances (t : Transport) (instances : List RawRecord) :
    List HealthResult × List SkipEntry :=
  evalLoop t 1 instances

/-! The statistics aggregator display_statistics of monitoring.py and
main.py (both hold the same code). It reads raw dicts from the JSON file;
the loaded list is the explicit input here. -/

structure Stats where
  total : Nat
  up : Nat
  down : Nat
  osCounts : List (String × Nat)
  healthCounts : List (String × Nat)
  avg_rt : Rat
  avg_cpu : Rat
  avg_mem : Rat
deriving DecidableEq

/-- Counter increment preserving first-insertion order, as
collections.Counter does for iteration. -/
def bump (key : String) : List (String × Nat) → List (String × Nat)
  | [] => [(key, 1)]
  | (k, n) :: rest =>
    if k = key then (k, n + 1) :: rest else (k, n) :: bump key rest

def counterOf (keys : List String) : List (String × Nat) :=
  keys.foldl (fun acc k => bump k acc) []

/-- The OS family token: get the os value with default unknown, strip it,
split on whitespace, take element zero, lower-case it. On an empty or
whitespace-only os string the split list is empty and the Python code
raises IndexError at the index zero access. -/
def osToken (inst : RawRecord) : Except String String :=
  let s := pyStrip (inst.os.getD "unknown")
  match pySplitWs s with
  | [] => .error "IndexError: list index out of range"
  | tok :: _ => .ok (pyLower tok)

def healthValue (inst : RawRecord) : String :=
  pyUpper (inst.health.getD "UNKNOWN")

def listAvg (xs : List Int) : Rat :=
  if xs.isEmpty then 0 else ((xs.sum : Int) : Rat) / ((xs.length : Nat) : Rat)

/-- display_statistics over an already loaded instance list. An empty list
takes the early no-machines return, reported as ok none; the error case is
the IndexError raised while counting OS families. -/
def display_statistics (instances : List RawRecord) : Except String (Option Stats) :=
  if instances.isEmpty then .ok none
  else
    match instances.mapM osToken with
    | .error e => .error e
    | .ok osTokens =>
      let total := instances.length
      let up := (instances.filter (fun i => i.status = some "UP")).length
      let down := total - up
      let osCounts := counterOf osTokens
      let healthCounts := counterOf (instances.map healthValue)
      let rts := instances.filterMap (fun i => i.response_time_ms)
      let cpus := instances.filterMap (fun i => i.cpu_percent)
      let mems := instances.filterMap (fun i => i.memory_percent)
      .ok (some
        { total := total
          up := up
          down := down
          osCounts := osCounts
          healthCounts := healthCounts
          avg_rt := listAvg rts
          avg_cpu := listAvg cpus
          avg_mem := listAvg mems })

/-! The partial-update endpoint update_instance of api_server.py: find the
first stored record whose name equals the path name, merge the payload over
it with dict-merge semantics, validate the merged dict, and on success
write it back in place. File handling is outside the embedding; the loaded
instance list is the explicit input and the rewritten list the output. -/

inductive UpdateResult where
  | notFound : UpdateResult
  | invalid : List (String × String) → UpdateResult
  | updated : List RawRecord → UpdateResult
deriving DecidableEq

/-- Python dict merge of old record and payload: a key present in the
payload wins, any other key keeps the stored value. -/
def mergeRecord (old p : RawRecord) : RawRecord :=
  { name := p.name <|> old.name
    ip := p.ip <|> old.ip
    os := p.os <|> old.os
    status := p.status <|> old.status
    check := p.check <|> old.check
    url := p.url <|> old.url
    cpu_percent := p.cpu_percent <|> old.cpu_percent
    memory_percent := p.memory_percent <|> old.memory_percent
    response_time_ms := p.response_time_ms <|> old.response_time_ms
    health := p.health <|> old.health }

def update_instance (instances : List RawRecord) (name : String)
    (payload : RawRecord) : UpdateResult :=
  match instances.findIdx? (fun inst => inst.name == some name) with
  | none => .notFound
  | some index =>
    let merged := mergeRecord (instances.getD index {}) payload
    match Validate merged with
    | .error errs => .invalid errs
    | .ok _ => .updated (instances.set index merged)

/-! Concrete inputs used by the individual claims. -/

/-- The raw record of the end-to-end scenario in the spec, with the four
metric fields cpu_percent, memory_percent, response_time_ms and health
omitted. -/
def c1Record : RawRecord :=
  { name := some "web1", ip := some "10.0.0.5", os := some "ubuntu 22.04",
    status := some "UP", check := some "http",
    url := some (some "http://10.0.0.5/health") }

def c2vm : VMInstance :=
  { name := "web1", ip := "10.0.0.5", os := "ubuntu 22.04", status := "UP",
    check := "http", url := some "http://10.0.0.5/health",
    cpu_percent := 50, memory_percent := 60, response_time_ms := 20,
    health := "OK" }

/-- A mocked transport answering every http probe with (true, 503, 1000). -/
def c2t : Transport := ⟨fun _ => (true, 0), fun _ => (true, some 503, 1000)⟩

/-- A mocked transport answering every ping with success after 10 ms. -/
def tC3 : Transport := ⟨fun _ => (true, 10), fun _ => (true, some 200, 50)⟩

def c3r1 : RawRecord :=
  { name := some "web1", ip := some "10.0.0.5", os := some "ubuntu 22.04",
    status := some "UP", check := some "ping",
    cpu_percent := some 10, memory_percent := some 20,
    response_time_ms := some 5, health := some "OK" }

def c3r2 : RawRecord := { c3r1 with name := some "" }

def c3r3 : RawRecord := { c3r1 with name := some "db1" }

/-- A raw record with check http whose url key is omitted entirely. -/
def c4Record : RawRecord :=
  { name := some "web1", ip := some "10.0.0.5", os := some "ubuntu 22.04",
    status := some "UP", check := some "http",
    cpu_percent := some 50, memory_percent := some 60,
    response_time_ms := some 20, health := some "OK" }

/-- A raw record failing two field checks at once: whitespace name and a
status outside UP and DOWN. -/
def c5Bad : RawRecord :=
  { name := some " ", ip := some "10.0.0.5", os := some "ubuntu",
    status := some "MAYBE", check := some "ping",
    cpu_percent := some 1, memory_percent := some 1,
    response_time_ms := some 1, health := some "OK" }

def c6Rec50 : RawRecord := { cpu_percent := some 50 }

def c6RecNone : RawRecord := {}

def c6Stats : Stats :=
  { total := 2, up := 0, down := 2, osCounts := [("unknown", 2)],
    healthCounts := [("UNKNOWN", 2)], avg_rt := listAvg [],
    avg_cpu := listAvg [50], avg_mem := listAvg [] }

/-- A record whose os value is whitespace only. -/
def c7Record : RawRecord := { name := some "x", os := some "   " }

def c8vm : VMInstance :=
  { name := "m1", ip := "10.0.0.5", os := "ubuntu", status := "UP",
    check := "tcp", url := none, cpu_percent := 1, memory_percent := 2,
    response_time_ms := 3, health := "OK" }

def c8ta : Transport := ⟨fun _ => (true, 10), fun _ => (true, some 200, 50)⟩

def c8tb : Transport := ⟨fun _ => (false, 9999), fun _ => (false, none, 9999)⟩

def c9r1 : RawRecord :=
  { name := some "web1", ip := some "10.0.0.5", os := some "ubuntu 22.04",
    status := some "UP", check := some "http",
    url := some (some "http://10.0.0.5/health"),
    cpu_percent := some 50, memory_percent := some 60,
    response_time_ms := some 20, health := some "OK" }

def c9r2 : RawRecord :=
  { name := some "db1", ip := some "10.0.0.6", os := some "debian",
    status := some "UP", check := some "ping",
    cpu_percent := some 10, memory_percent := some 20,
    response_time_ms := some 5, health := some "OK" }

def c9Store : List RawRecord := [c9r1, c9r2]

/-- A partial update payload naming only the status field. -/
def c9Payload : RawRecord := { status := some "DOWN" }

def c9Result : List RawRecord := [{ c9r1 with status := some "DOWN" }, c9r2]

/-- A raw record with check http and no url key; it passes validation with
url defaulted to none. -/
def c10Record : RawRecord :=
  { name := some "api1", ip := some "10.0.0.7", os := some "centos",
    status := some "UP", check := some "http",
    cpu_percent := some 30, memory_percent := some 40,
    response_time_ms := some 15, health := some "OK" }

def c10vm : VMInstance :=
  { name := "api1", ip := "10.0.0.7", os := "centos", status := "UP",
    check := "http", url := none, cpu_percent := 30, memory_percent := 40,
    response_time_ms := 15, health := "OK" }

def c10t : Transport := ⟨fun _ => (true, 10), fun _ => (true, some 200, 50)⟩

/-! Helper lemmas. -/

theorem errList_map_fst {α : Type} (f : String) (e : Except String α) :
    List.Sublist ((errList f e).map Prod.fst) [f] := by
  cases e <;> simp [errList]

theorem validationErrors_fst_sublist (r : RawRecord) :
    List.Sublist ((validationErrors r).map Prod.fst) fieldNames := by
  have h := ((errList_map_fst "name" (nameCheck r)).append
    ((errList_map_fst "ip" (ipCheck r)).append
    ((errList_map_fst "os" (osCheck r)).append
    ((errList_map_fst "status" (statusCheck r)).append
    ((errList_map_fst "check" (checkCheck r)).append
    ((errList_map_fst "url" (urlCheck r)).append
    ((errList_map_fst "cpu_percent" (cpuCheck r)).append
    ((errList_map_fst "memory_percent" (memCheck r)).append
    ((errList_map_fst "response_time_ms" (rtCheck r)).append
      (errList_map_fst "health" (healthCheck r)))))))))))
  simpa [validationErrors, fieldNames] using h

/-- Claim C1: the spec treats cpu_percent, memory_percent, response_time_ms
and health as optional, but the pydantic model declares them without
defaults, so the end-to-end scenario record without them is rejected with
four Field required errors. -/
theorem c1_metrics_required_rejected :
    Validate c1Record = .error
      [("cpu_percent", "Field required"), ("memory_percent", "Field required"),
       ("response_time_ms", "Field required"), ("health", "Field required")] := by
  decide

/-- Claim C7: the statistics aggregator is not total: a record whose os
string is whitespace only makes the OS-family counter index an empty split
list, the IndexError of the Python code; moreover on empty input the code
returns early with no machines found instead of reporting zero counts. -/
theorem c7_whitespace_os_raises :
    display_statistics [c7Record] = .error "IndexError: list index out of range"
    ∧ display_statistics [] = .ok none := by
  constructor <;> decide

/-- Claim C5 (amended): Validate classifies every raw input as valid or as
failing with a non-empty accumulated list of field and reason pairs; each
field contributes at most one entry and the entries appear in the field
declaration order name, ip, os, status, check, url, cpu_percent,
memory_percent, response_time_ms, health. Being a Lean function of the raw
record alone, it performs no input or output. -/
theorem c5_validate_total_ordered :
    ∀ r : RawRecord,
      (∃ vm, Validate r = .ok vm)
      ∨ (∃ errs, Validate r = .error errs ∧ errs ≠ []
          ∧ List.Sublist (errs.map Prod.fst) fieldNames) := by
  intro r
  by_cases h : validationErrors r = []
  · exact .inl ⟨buildVM r, by simp [Validate, h]⟩
  · exact .inr ⟨validationErrors r, by simp [Validate, h], h,
      validationErrors_fst_sublist r⟩

/-- Claim C5 counterexample: one raw input is reported with two failing
field and reason pairs at once, so validation does not stop at the first
failing check. -/
theorem c5_two_errors_counterexample :
    Validate c5Bad = .error
      [("name", "Name cannot be empty"), ("status", "Input should be UP or DOWN")] := by
  decide

/-- Claim C4: a record with check http whose url key is missing is accepted
by validation with url none, because pydantic does not run the
url_required_if_http validator on the defaulted url value; the claim says
a missing url must be rejected. -/
theorem c4_missing_url_accepted :
    Validate c4Record = .ok
      { name := "web1", ip := "10.0.0.5", os := "ubuntu 22.04", status := "UP",
        check := "http", url := none, cpu_percent := 50, memory_percent := 60,
        response_time_ms := 20, health := "OK" } := by
  decide

/-- Claim C2: for an http record with a non-empty url, a transport outcome
of success with status code at least 500 classifies CRIT with reason
HTTP code, whatever the latency. -/
theorem c2_http_500_is_crit :
    ∀ (t : Transport) (vm : VMInstance) (u : String) (code rt : Int),
      vm.check = "http" → vm.url = some u → u ≠ "" →
      t.http u = (true, some code, rt) → 500 ≤ code →
      monitor_vm t vm = .ok
        ⟨⟨vm.name, vm.status, "CRIT", "http", some rt,
          some vm.cpu_percent, some vm.memory_percent⟩,
         "HTTP " ++ toString code⟩ := by
  intro t vm u code rt h1 h2 h3 h4 h5
  simp [monitor_vm, h1, h2, h3, h4, ge_iff_le, h5]

/-- Claim C2 witness: with the spec record and a mocked transport returning
(true, 503, 1000 ms) the verdict is CRIT with reason HTTP 503, not WARN. -/
theorem c2_http_500_is_crit_witness :
    c2vm.check = "http" ∧ c2vm.url = some "http://10.0.0.5/health"
    ∧ "http://10.0.0.5/health" ≠ ""
    ∧ c2t.http "http://10.0.0.5/health" = (true, some 503, 1000)
    ∧ (500 : Int) ≤ 503
    ∧ monitor_vm c2t c2vm = .ok
        ⟨⟨"web1", "UP", "CRIT", "http", some 1000, some 50, some 60⟩,
         "HTTP 503"⟩ :=
  ⟨rfl, rfl, by decide, rfl, by decide,
    c2_http_500_is_crit c2t c2vm "http://10.0.0.5/health" 503 1000 rfl rfl
      (by decide) rfl (by decide)⟩

/-- Claim C8: a record whose check method is neither ping nor http gets
health WARN with reason Unsupported check method and a null latency, never
CRIT, and the outcome does not depend on the probe transport at all. -/
theorem c8_unsupported_method_warn :
    ∀ (t t2 : Transport) (vm : VMInstance),
      vm.check ≠ "ping" → vm.check ≠ "http" →
      monitor_vm t vm = .ok
        ⟨⟨vm.name, vm.status, "WARN", vm.check, none,
          some vm.cpu_percent, some vm.memory_percent⟩,
         "Unsupported check method"⟩
      ∧ monitor_vm t vm = monitor_vm t2 vm := by
  intro t t2 vm h1 h2
  constructor
  · simp [monitor_vm, h1, h2]
  · simp [monitor_vm, h1, h2]

/-- Claim C8 witness: a record with check tcp is WARN for unsupported
method under two transports that disagree on every probe. -/
theorem c8_unsupported_method_warn_witness :
    c8vm.check ≠ "ping" ∧ c8vm.check ≠ "http"
    ∧ monitor_vm c8ta c8vm = .ok
        ⟨⟨"m1", "UP", "WARN", "tcp", none, some 1, some 2⟩,
         "Unsupported check method"⟩
    ∧ monitor_vm c8ta c8vm = monitor_vm c8tb c8vm :=
  ⟨by decide, by decide,
    (c8_unsupported_method_warn c8ta c8tb c8vm (by decide) (by decide)).1,
    (c8_unsupported_method_warn c8ta c8tb c8vm (by decide) (by decide)).2⟩

theorem except_toOption_ok {ε α : Type} (a : α) :
    (Except.ok a : Except ε α).toOption = some a := rfl

theorem except_toOption_error {ε α : Type} (e : ε) :
    (Except.error e : Except ε α).toOption = none := rfl

theorem evalLoop_spec (t : Transport) (l : List RawRecord) : ∀ idx : Nat,
    (evalLoop t idx l).1 = l.filterMap
      (fun d => (Validate d).toOption.bind
        (fun vm => (monitor_vm t vm).toOption.map (fun o => o.result)))
    ∧ (evalLoop t idx l).1.length + (evalLoop t idx l).2.length = l.length := by
  induction l with
  | nil => intro idx; simp [evalLoop]
  | cons d rest ih =>
    intro idx
    obtain ⟨h1, h2⟩ := ih (idx + 1)
    cases hv : Validate d with
    | error errs =>
      have e1 : evalLoop t idx (d :: rest)
          = ((evalLoop t (idx + 1) rest).1,
             .invalidRecord idx errs :: (evalLoop t (idx + 1) rest).2) := by
        simp [evalLoop, hv]
      rw [e1]
      constructor
      · simpa [List.filterMap_cons, hv, except_toOption_error] using h1
      · simp only [List.length_cons]
        omega
    | ok vm =>
      cases hm : monitor_vm t vm with
      | error msg =>
        have e1 : evalLoop t idx (d :: rest)
            = ((evalLoop t (idx + 1) rest).1,
               .monitorFailed idx vm.name msg :: (evalLoop t (idx + 1) rest).2) := by
          simp [evalLoop, hv, hm]
        rw [e1]
        constructor
        · simpa [List.filterMap_cons, hv, hm, except_toOption_ok,
            except_toOption_error] using h1
        · simp only [List.length_cons]
          omega
      | ok out =>
        have e1 : evalLoop t idx (d :: rest)
            = (out.result :: (evalLoop t (idx + 1) rest).1,
               (evalLoop t (idx + 1) rest).2) := by
          simp [evalLoop, hv, hm]
        rw [e1]
        constructor
        · simpa [List.filterMap_cons, hv, hm, except_toOption_ok] using h1
        · simp only [List.length_cons]
          omega

/-- Claim C3: the batch evaluator processes entries in input order, turns a
validation failure or a caught monitoring failure into a skip entry and
continues, and yields one result per fully processed record, in original
relative order (the result list is the input filtered and mapped in
place); results plus skips account for every entry. Concretely, of three
records whose second has an empty name it yields two results and one skip
entry. -/
theorem c3_batch_isolation :
    (∀ (t : Transport) (l : List RawRecord),
      (validate_all_instances t l).1 = l.filterMap
        (fun d => (Validate d).toOption.bind
          (fun vm => (monitor_vm t vm).toOption.map (fun o => o.result)))
      ∧ (validate_all_instances t l).1.length
          + (validate_all_instances t l).2.length = l.length)
    ∧ validate_all_instances tC3 [c3r1, c3r2, c3r3] =
        ([⟨"web1", "UP", "OK", "ping", some 10, some 10, some 20⟩,
          ⟨"db1", "UP", "OK", "ping", some 10, some 10, some 20⟩],
         [SkipEntry.invalidRecord 2 [("name", "Name cannot be empty")]]) := by
  constructor
  · intro t l
    exact evalLoop_spec t l 1
  · decide

theorem listAvg_mul_length (xs : List Int) :
    listAvg xs * ((xs.length : Nat) : Rat) = ((xs.sum : Int) : Rat) := by
  by_cases h : xs = []
  · subst h; simp [listAvg]
  · have hne : ¬xs.isEmpty := by simpa [List.isEmpty_iff] using h
    have hpos : 0 < xs.length := List.length_pos.mpr h
    have hlen : ((xs.length : Nat) : Rat) ≠ 0 := by
      exact_mod_cast Nat.pos_iff_ne_zero.mp hpos
    simp only [listAvg, hne, if_neg, Bool.false_eq_true, ite_false]
    exact div_mul_cancel₀ _ hlen

/-- Claim C6: each reported average counts only the entries where the field
is present: the average times the number of present entries equals their
sum (so missing entries are excluded from the denominator, not counted as
zero), and with no present entry the average is reported as 0. -/
theorem c6_avg_excludes_missing :
    ∀ (l : List RawRecord) (s : Stats),
      display_statistics l = .ok (some s) →
      (s.avg_cpu * (((l.filterMap (fun i => i.cpu_percent)).length : Nat) : Rat)
          = (((l.filterMap (fun i => i.cpu_percent)).sum : Int) : Rat)
        ∧ ((l.filterMap (fun i => i.cpu_percent)) = [] → s.avg_cpu = 0))
      ∧ (s.avg_rt * (((l.filterMap (fun i => i.response_time_ms)).length : Nat) : Rat)
          = (((l.filterMap (fun i => i.response_time_ms)).sum : Int) : Rat)
        ∧ ((l.filterMap (fun i => i.response_time_ms)) = [] → s.avg_rt = 0))
      ∧ (s.avg_mem * (((l.filterMap (fun i => i.memory_percent)).length : Nat) : Rat)
          = (((l.filterMap (fun i => i.memory_percent)).sum : Int) : Rat)
        ∧ ((l.filterMap (fun i => i.memory_percent)) = [] → s.avg_mem = 0)) := by
  intro l s h
  unfold display_statistics at h
  by_cases he : l.isEmpty
  · rw [if_pos he] at h
    exact absurd h (by simp)
  · rw [if_neg he] at h
    cases hm : l.mapM osToken with
    | error e =>
      rw [hm] at h
      exact absurd h (by simp)
    | ok toks =>
      rw [hm] at h
      dsimp only at h
      injection h with h
      injection h with h
      subst h
      refine ⟨⟨listAvg_mul_length _, ?_⟩, ⟨listAvg_mul_length _, ?_⟩,
        ⟨listAvg_mul_length _, ?_⟩⟩ <;> intro hnil <;> simp [listAvg, hnil]

/-- Claim C6 witness: for one record with cpu 50 and one record missing the
field, the cpu average is 50 with denominator 1, not 25 with denominator 2. -/
theorem c6_avg_excludes_missing_witness :
    display_statistics [c6Rec50, c6RecNone] = .ok (some c6Stats)
    ∧ c6Stats.avg_cpu = 50 := by
  have h : display_statistics [c6Rec50, c6RecNone] = .ok (some c6Stats) := rfl
  refine ⟨h, ?_⟩
  have h2 := (c6_avg_excludes_missing [c6Rec50, c6RecNone] c6Stats h).1.1
  have h3 : c6Stats.avg_cpu * ((1 : Nat) : Rat) = ((50 : Int) : Rat) := h2
  simpa using h3

/-- Claim C9: a partial update by name merges the payload over the first
stored record with that name: the store is rewritten only at that index,
its length is unchanged, every other position is unchanged, and every
field the payload does not name keeps the stored value in the merged
record. -/
theorem c9_update_merge_frame :
    ∀ (instances : List RawRecord) (name : String) (payload : RawRecord)
      (index : Nat) (result : List RawRecord),
      instances.findIdx? (fun inst => inst.name == some name) = some index →
      update_instance instances name payload = .updated result →
      result = instances.set index (mergeRecord (instances.getD index {}) payload)
      ∧ result.length = instances.length
      ∧ (∀ j, j ≠ index → result[j]? = instances[j]?)
      ∧ (∀ old : RawRecord,
          (payload.name = none → (mergeRecord old payload).name = old.name)
          ∧ (payload.ip = none → (mergeRecord old payload).ip = old.ip)
          ∧ (payload.os = none → (mergeRecord old payload).os = old.os)
          ∧ (payload.status = none → (mergeRecord old payload).status = old.status)
          ∧ (payload.check = none → (mergeRecord old payload).check = old.check)
          ∧ (payload.url = none → (mergeRecord old payload).url = old.url)
          ∧ (payload.cpu_percent = none →
              (mergeRecord old payload).cpu_percent = old.cpu_percent)
          ∧ (payload.memory_percent = none →
              (mergeRecord old payload).memory_percent = old.memory_percent)
          ∧ (payload.response_time_ms = none →
              (mergeRecord old payload).response_time_ms = old.response_time_ms)
          ∧ (payload.health = none →
              (mergeRecord old payload).health = old.health)) := by
  intro instances name payload index result hfind hupd
  unfold update_instance at hupd
  rw [hfind] at hupd
  dsimp only at hupd
  cases hv : Validate (mergeRecord (instances.getD index {}) payload) with
  | error errs =>
    rw [hv] at hupd
    exact absurd hupd (by simp)
  | ok vm =>
    rw [hv] at hupd
    injection hupd with hupd
    subst hupd
    refine ⟨rfl, List.length_set .., ?_, ?_⟩
    · intro j hj
      exact List.getElem?_set_ne (fun hEq => hj hEq.symm)
    · intro old
      refine ⟨?_, ?_, ?_, ?_, ?_, ?_, ?_, ?_, ?_, ?_⟩ <;>
        intro hp <;> simp [mergeRecord, hp]

/-- Claim C9 witness: updating only the status of web1 in a two-record
store leaves the second record and the url of the first unchanged. -/
theorem c9_update_merge_frame_witness :
    c9Store.findIdx? (fun inst => inst.name == some "web1") = some 0
    ∧ update_instance c9Store "web1" c9Payload = .updated c9Result
    ∧ c9Result = c9Store.set 0 (mergeRecord (c9Store.getD 0 {}) c9Payload)
    ∧ c9Result[1]? = c9Store[1]?
    ∧ (mergeRecord c9r1 c9Payload).url = c9r1.url := by
  have hfind : c9Store.findIdx? (fun inst => inst.name == some "web1") = some 0 := by
    decide
  have hupd : update_instance c9Store "web1" c9Payload = .updated c9Result := by
    decide
  have h := c9_update_merge_frame c9Store "web1" c9Payload 0 c9Result hfind hupd
  exact ⟨hfind, hupd, h.1, h.2.2.1 1 (by decide),
    (h.2.2.2 c9r1).2.2.2.2.2.1 (by decide)⟩

/-- Claim C10 (amended): validation does not guarantee a url for http
records whose url key is omitted, so the Missing URL CRIT branch is
reachable on validated records; for every record with check http and url
none or empty the evaluator returns CRIT, reason Missing URL for HTTP
check, latency 0. -/
theorem c10_missing_url_branch :
    (∀ (t : Transport) (vm : VMInstance),
      vm.check = "http" → vm.url = none ∨ vm.url = some "" →
      monitor_vm t vm = .ok
        ⟨⟨vm.name, vm.status, "CRIT", "http", some 0,
          some vm.cpu_percent, some vm.memory_percent⟩,
         "Missing URL for HTTP check"⟩)
    ∧ Validate c10Record = .ok c10vm ∧ c10vm.check = "http" ∧ c10vm.url = none := by
  refine ⟨?_, by decide, rfl, rfl⟩
  intro t vm h1 h2
  rcases h2 with h2 | h2 <;> simp [monitor_vm, h1, h2]

/-- Claim C10 counterexample: a concrete record with check http and no url
key passes validation, and the evaluator then takes the Missing URL CRIT
branch on the validated instance, so the branch is not unreachable. -/
theorem c10_reachable_counterexample :
    Validate c10Record = .ok c10vm
    ∧ monitor_vm c10t c10vm = .ok
        ⟨⟨"api1", "UP", "CRIT", "http", some 0, some 30, some 40⟩,
         "Missing URL for HTTP check"⟩ := by
  constructor <;> decide

/-- Claim C10 witness: the general branch lemma applied to the validated
instance of the record without a url key. -/
theorem c10_missing_url_branch_witness :
    c10vm.check = "http" ∧ c10vm.url = none
    ∧ monitor_vm c10t c10vm = .ok
        ⟨⟨"api1", "UP", "CRIT", "http", some 0, some 30, some 40⟩,
         "Missing URL for HTTP check"⟩ :=
  ⟨rfl, rfl, c10_missing_url_branch.1 c10t c10vm rfl (Or.inl rfl)⟩
